import Mathlib

/-!
Shallow embedding of the booking core of the service-booking backend
(`app/repositories/booking_repository.py`, `app/api/v1/bookings.py`,
`app/api/v1/reviews.py`, `app/schemas/schemas.py`, `app/models/models.py`).

Datetimes are modelled as integers (a linear timeline, e.g. minutes since an
epoch); `timedelta(minutes=d)` becomes addition of `d`.  Python `Optional`
values become `Option`; SQLAlchemy query results over a session become pure
functions over a `DB` state carrying the persisted lists of services, bookings
and reviews.  Each FastAPI endpoint becomes a function from the current time,
the state, the authenticated user and the parsed request body to an
`Except ApiError` result; a raised `HTTPException` becomes an `error` and the
pydantic validators of the request schemas are the first checks performed.
An `error` result leaves the state untouched, matching an aborted request.
-/

namespace BookIt

/-- `UserRole` enum from `app/models/models.py`. -/
inductive UserRole where
  | user
  | admin
deriving DecidableEq, Repr

/-- `BookingStatus` enum from `app/models/models.py`. -/
inductive BookingStatus where
  | pending
  | confirmed
  | cancelled
  | completed
deriving DecidableEq, Repr

/-- `User` model (fields relevant to the booking core). -/
structure User where
  id : Nat
  role : UserRole
deriving DecidableEq, Repr

/-- `Service` model (fields used by the booking endpoints). -/
structure Service where
  id : Nat
  duration_minutes : Int
  is_active : Bool
deriving DecidableEq, Repr

/-- `Booking` model. -/
structure Booking where
  id : Nat
  user_id : Nat
  service_id : Nat
  start_time : Int
  end_time : Int
  status : BookingStatus
  created_at : Int
deriving DecidableEq, Repr

/-- `Review` model. -/
structure Review where
  id : Nat
  booking_id : Nat
  rating : Int
  comment : String
  created_at : Int
deriving DecidableEq, Repr

/-- The persistent store: the three tables the booking core touches. -/
structure DB where
  services : List Service
  bookings : List Booking
  reviews : List Review
deriving DecidableEq, Repr

/-- Error taxonomy of the endpoints: each `raise HTTPException` site is mapped
to the spec's error name for its status code and message (§7 of the spec).
`internalError` stands for the unhandled `AttributeError` that
`update_booking` would raise if a booking's service were absent (a foreign-key
violation). -/
inductive ApiError where
  | notFound
  | forbidden
  | invalidState
  | conflict
  | validationError
  | alreadyExists
  | internalError
deriving DecidableEq, Repr

/-- The three-clause interval test inside `BookingRepository.check_conflict`
(lines 54-69): the disjunction of
`Booking.start_time <= start AND Booking.end_time > start`,
`Booking.start_time < end AND Booking.end_time >= end`,
`Booking.start_time >= start AND Booking.end_time <= end`,
with `bs`, `be` the persisted booking's interval and `s`, `e` the candidate. -/
def overlap_clauses (bs be s e : Int) : Bool :=
  (decide (bs ≤ s) && decide (be > s))
  || (decide (bs < e) && decide (be ≥ e))
  || (decide (bs ≥ s) && decide (be ≤ e))

/-- The half-open interval overlap test named by the spec:
`s1 < e2 AND s2 < e1` for candidate `[s1,e1)` against existing `[s2,e2)`.
This is the spec-side definition that `overlap_clauses` is compared with. -/
def half_open_overlap (s1 e1 s2 e2 : Int) : Bool :=
  decide (s1 < e2) && decide (s2 < e1)

/-- The `Booking.id != exclude_booking_id` filter of `check_conflict`:
it is guarded by Python truthiness (`if exclude_booking_id:`), so it applies
only when the argument is present and nonzero. -/
def excludePasses (exclude_booking_id : Option Nat) (b : Booking) : Bool :=
  match exclude_booking_id with
  | some k => if k ≠ 0 then decide (b.id ≠ k) else true
  | none => true

/-- `BookingRepository.check_conflict`: true iff some persisted booking on the
service, with status `pending` or `confirmed`, passes the three-clause overlap
test and is not the excluded booking (`query.first() is not None`). -/
def check_conflict (bookings : List Booking) (service_id : Nat)
    (start_time end_time : Int) (exclude_booking_id : Option Nat) : Bool :=
  bookings.any fun b =>
    decide (b.service_id = service_id)
    && (decide (b.status = BookingStatus.pending)
        || decide (b.status = BookingStatus.confirmed))
    && overlap_clauses b.start_time b.end_time start_time end_time
    && excludePasses exclude_booking_id b

theorem overlap_clauses_iff_half_open (bs be s e : Int)
    (hcand : s < e) (hexist : bs < be) :
    overlap_clauses bs be s e = true ↔ half_open_overlap s e bs be = true := by
  simp only [overlap_clauses, half_open_overlap, Bool.or_eq_true,
    Bool.and_eq_true, decide_eq_true_eq]
  omega

theorem check_conflict_iff (bookings : List Booking) (service_id : Nat)
    (start_time end_time : Int) (exclude_booking_id : Option Nat) :
    check_conflict bookings service_id start_time end_time exclude_booking_id
        = true ↔
      ∃ b ∈ bookings, b.service_id = service_id
        ∧ (b.status = BookingStatus.pending ∨ b.status = BookingStatus.confirmed)
        ∧ overlap_clauses b.start_time b.end_time start_time end_time = true
        ∧ excludePasses exclude_booking_id b = true := by
  simp only [check_conflict, List.any_eq_true, Bool.and_eq_true,
    Bool.or_eq_true, decide_eq_true_eq]
  constructor
  · rintro ⟨b, hb, ⟨⟨hsid, hst⟩, hov⟩, hex⟩
    exact ⟨b, hb, hsid, hst, hov, hex⟩
  · rintro ⟨b, hb, hsid, hst, hov, hex⟩
    exact ⟨b, hb, ⟨⟨hsid, hst⟩, hov⟩, hex⟩

/-- Fresh primary key for a new booking row (autoincrement: strictly larger
than every existing id, hence at least 1). -/
def freshBookingId (bs : List Booking) : Nat :=
  bs.foldr (fun b acc => max b.id acc) 0 + 1

/-- Fresh primary key for a new review row. -/
def freshReviewId (rs : List Review) : Nat :=
  rs.foldr (fun r acc => max r.id acc) 0 + 1

/-- `ServiceRepository.get_by_id`. -/
def serviceById (db : DB) (service_id : Nat) : Option Service :=
  db.services.find? fun s => decide (s.id = service_id)

/-- `BookingRepository.get_by_id`. -/
def bookingById (db : DB) (booking_id : Nat) : Option Booking :=
  db.bookings.find? fun b => decide (b.id = booking_id)

/-- `ReviewRepository.get_by_booking_id`. -/
def reviewByBookingId (db : DB) (booking_id : Nat) : Option Review :=
  db.reviews.find? fun r => decide (r.booking_id = booking_id)

/-- Request body of `POST /bookings` (`BookingCreate` schema). -/
structure BookingCreate where
  service_id : Nat
  start_time : Int
deriving DecidableEq, Repr

/-- Request body of `PATCH /bookings/:id` (`BookingUpdate` schema). -/
structure BookingUpdate where
  start_time : Option Int
  status : Option BookingStatus
deriving DecidableEq, Repr

/-- Request body of `POST /reviews` (`ReviewCreate` schema). -/
structure ReviewCreate where
  booking_id : Nat
  rating : Int
  comment : String
deriving DecidableEq, Repr

/-- `ReviewCreate`'s pydantic field constraints:
`rating: int = Field(..., ge=1, le=5)`,
`comment: str = Field(..., min_length=1, max_length=1000)`. -/
def reviewCreateValid (req : ReviewCreate) : Bool :=
  decide (1 ≤ req.rating) && decide (req.rating ≤ 5)
  && decide (1 ≤ req.comment.length) && decide (req.comment.length ≤ 1000)

/-- Replace the row with the given id (the ORM mutation performed by
`BookingRepository.update` followed by `commit`). -/
def replaceBooking (bs : List Booking) (b' : Booking) : List Booking :=
  bs.map fun c => if c.id = b'.id then b' else c

/-- `create_booking` endpoint (`POST /bookings`).  The pydantic validator
`BookingCreate.validate_start_time` (`if v < datetime.utcnow(): raise`) runs
first; then the handler: 404 if the service is absent, 400 if it is inactive,
`end_time = start_time + timedelta(minutes=service.duration_minutes)`,
409 on `check_conflict`, otherwise `BookingRepository.create` persists a new
booking with status `PENDING`. -/
def create_booking (now : Int) (db : DB) (u : User) (req : BookingCreate) :
    Except ApiError (DB × Booking) :=
  if req.start_time < now then .error .validationError else
  match serviceById db req.service_id with
  | none => .error .notFound
  | some service =>
    if !service.is_active then .error .invalidState else
    let end_time := req.start_time + service.duration_minutes
    if check_conflict db.bookings req.service_id req.start_time end_time none
    then .error .conflict
    else
      let booking : Booking :=
        { id := freshBookingId db.bookings
          user_id := u.id
          service_id := req.service_id
          start_time := req.start_time
          end_time := end_time
          status := .pending
          created_at := now }
      .ok ({ db with bookings := db.bookings ++ [booking] }, booking)

/-- `update_booking` endpoint (`PATCH /bookings/:id`).  The pydantic validator
`BookingUpdate.validate_start_time` (`if v and v < datetime.utcnow()`) runs
first; then: 404 if the booking is absent; 403 if the caller is neither the
owner nor an admin; the reschedule block runs when a new `start_time` is
present AND the caller is the owner (400 unless status is pending/confirmed,
recompute the end from the service's current duration, 409 on conflict
excluding the booking itself, persist new start/end); then the status block
runs when a `status` is present (admins set it unconditionally; an owner may
only set `cancelled` and only from pending/confirmed, 400 otherwise; anyone
else gets 403). -/
def update_booking (now : Int) (db : DB) (u : User) (booking_id : Nat)
    (req : BookingUpdate) : Except ApiError (DB × Booking) :=
  if (match req.start_time with
      | some t => decide (t < now)
      | none => false) then .error .validationError else
  match bookingById db booking_id with
  | none => .error .notFound
  | some booking =>
    let is_owner := decide (booking.user_id = u.id)
    let is_admin := decide (u.role = UserRole.admin)
    if !is_owner && !is_admin then .error .forbidden else
    let step1 : Except ApiError (DB × Booking) :=
      match req.start_time with
      | some new_start =>
        if is_owner then
          if !(decide (booking.status = BookingStatus.pending)
              || decide (booking.status = BookingStatus.confirmed)) then
            .error .invalidState
          else
            match serviceById db booking.service_id with
            | none => .error .internalError
            | some service =>
              let new_end := new_start + service.duration_minutes
              if check_conflict db.bookings booking.service_id new_start new_end
                  (some booking.id)
              then .error .conflict
              else
                let b' := { booking with start_time := new_start, end_time := new_end }
                .ok ({ db with bookings := replaceBooking db.bookings b' }, b')
        else .ok (db, booking)
      | none => .ok (db, booking)
    match step1 with
    | .error e => .error e
    | .ok (db1, booking1) =>
      match req.status with
      | none => .ok (db1, booking1)
      | some st =>
        if is_admin then
          let b2 := { booking1 with status := st }
          .ok ({ db1 with bookings := replaceBooking db1.bookings b2 }, b2)
        else if is_owner && decide (st = BookingStatus.cancelled) then
          if !(decide (booking1.status = BookingStatus.pending)
              || decide (booking1.status = BookingStatus.confirmed)) then
            .error .invalidState
          else
            let b2 := { booking1 with status := BookingStatus.cancelled }
            .ok ({ db1 with bookings := replaceBooking db1.bookings b2 }, b2)
        else .error .forbidden

/-- `delete_booking` endpoint (`DELETE /bookings/:id`): 404 if absent, 403 if
neither owner nor admin, 400 for a non-admin owner once
`booking.start_time <= datetime.utcnow()`; on success the row is deleted and,
per the `cascade="all, delete-orphan"` on `Booking.review`
(`app/models/models.py`), so is any review referencing it. -/
def delete_booking (now : Int) (db : DB) (u : User) (booking_id : Nat) :
    Except ApiError DB :=
  match bookingById db booking_id with
  | none => .error .notFound
  | some booking =>
    let is_owner := decide (booking.user_id = u.id)
    let is_admin := decide (u.role = UserRole.admin)
    if !is_owner && !is_admin then .error .forbidden
    else if is_owner && !is_admin && decide (booking.start_time ≤ now) then
      .error .invalidState
    else
      .ok { db with
        bookings := db.bookings.filter fun b => !decide (b.id = booking.id)
        reviews := db.reviews.filter fun r => !decide (r.booking_id = booking.id) }

/-- `create_review` endpoint (`POST /reviews`): the pydantic field constraints
run first; then 404 if the booking is absent, 403 if it is not the caller's,
400 unless its status is `completed`, 400 (`AlreadyExists`) if a review for it
exists, otherwise `ReviewRepository.create` persists the review. -/
def create_review (now : Int) (db : DB) (u : User) (req : ReviewCreate) :
    Except ApiError (DB × Review) :=
  if !reviewCreateValid req then .error .validationError else
  match bookingById db req.booking_id with
  | none => .error .notFound
  | some booking =>
    if !decide (booking.user_id = u.id) then .error .forbidden
    else if !decide (booking.status = BookingStatus.completed) then .error .invalidState
    else match reviewByBookingId db req.booking_id with
    | some _ => .error .alreadyExists
    | none =>
      let review : Review :=
        { id := freshReviewId db.reviews
          booking_id := req.booking_id
          rating := req.rating
          comment := req.comment
          created_at := now }
      .ok ({ db with reviews := db.reviews ++ [review] }, review)

/-- The conjunction of the optional filters of `BookingRepository.get_all`. -/
def matchesFilters (b : Booking) (user_id : Option Nat)
    (status : Option BookingStatus) (from_date to_date : Option Int) : Bool :=
  (match user_id with | some uid => decide (b.user_id = uid) | none => true)
  && (match status with | some st => decide (b.status = st) | none => true)
  && (match from_date with | some d => decide (d ≤ b.start_time) | none => true)
  && (match to_date with | some d => decide (b.start_time ≤ d) | none => true)

/-- Insertion step of the `order_by(Booking.start_time.desc())` sort. -/
def insertDesc (b : Booking) : List Booking → List Booking
  | [] => [b]
  | c :: cs =>
    if c.start_time ≤ b.start_time then b :: c :: cs else c :: insertDesc b cs

/-- `order_by(Booking.start_time.desc())`: sort by start time, descending. -/
def sortByStartDesc : List Booking → List Booking
  | [] => []
  | b :: bs => insertDesc b (sortByStartDesc bs)

/-- `BookingRepository.get_all`: apply the optional filters, then order by
start time descending. -/
def get_all (bookings : List Booking) (user_id : Option Nat)
    (status : Option BookingStatus) (from_date to_date : Option Int) :
    List Booking :=
  sortByStartDesc (bookings.filter fun b =>
    matchesFilters b user_id status from_date to_date)

/-- `get_bookings` endpoint (`GET /bookings`): non-admin callers are scoped to
their own bookings (`user_id = None if admin else current_user.id`). -/
def get_bookings (db : DB) (u : User) (status : Option BookingStatus)
    (from_date to_date : Option Int) : List Booking :=
  let user_id := if u.role = UserRole.admin then none else some u.id
  get_all db.bookings user_id status from_date to_date

/-! ### Shared helper lemmas -/

theorem excludePasses_none (b : Booking) : excludePasses none b = true := rfl

theorem excludePasses_of_ne (k : Nat) (b : Booking) (h : b.id ≠ k) :
    excludePasses (some k) b = true := by
  simp [excludePasses, h]

theorem bookingById_id (db : DB) (bid : Nat) (b0 : Booking)
    (h : bookingById db bid = some b0) : b0.id = bid := by
  have := List.find?_some h
  simpa using this

theorem bookingById_mem (db : DB) (bid : Nat) (b0 : Booking)
    (h : bookingById db bid = some b0) : b0 ∈ db.bookings :=
  List.mem_of_find?_eq_some h

theorem serviceById_id (db : DB) (sid : Nat) (s : Service)
    (h : serviceById db sid = some s) : s.id = sid := by
  have := List.find?_some h
  simpa using this

theorem mem_insertDesc (a b : Booking) (l : List Booking) :
    b ∈ insertDesc a l ↔ b = a ∨ b ∈ l := by
  induction l with
  | nil => simp [insertDesc]
  | cons c cs ih =>
    simp only [insertDesc]
    split
    · simp
    · simp only [List.mem_cons, ih]
      tauto

theorem mem_sortByStartDesc (b : Booking) (l : List Booking) :
    b ∈ sortByStartDesc l ↔ b ∈ l := by
  induction l with
  | nil => simp [sortByStartDesc]
  | cons c cs ih =>
    simp only [sortByStartDesc, mem_insertDesc, ih, List.mem_cons]

/-! ### C2: the three-clause overlap test equals the half-open overlap test -/

/-- C2: for non-degenerate intervals (`e1 > s1` for the candidate `[s1,e1)`
and `e2 > s2` for the existing booking `[s2,e2)`), the three-clause test of
`BookingRepository.check_conflict` holds iff the half-open overlap test
`s1 < e2 AND s2 < e1` holds. -/
theorem C2_overlap_equiv (s1 e1 s2 e2 : Int) (h1 : s1 < e1) (h2 : s2 < e2) :
    overlap_clauses s2 e2 s1 e1 = true ↔ (s1 < e2 ∧ s2 < e1) := by
  rw [overlap_clauses_iff_half_open s2 e2 s1 e1 h1 h2]
  simp [half_open_overlap]

/-- Witness for C2 at the concrete intervals `[0,2)` and `[1,3)`. -/
theorem C2_overlap_equiv_witness :
    (overlap_clauses 1 3 0 2 = true ↔ ((0 : Int) < 3 ∧ (1 : Int) < 2)) :=
  C2_overlap_equiv 0 2 1 3 (by decide) (by decide)

/-! ### C1: overlapping pending/confirmed bookings block creation and
reschedule; terminal bookings never block -/

/-- C1: (i) a booking-creation attempt whose half-open window overlaps a
persisted non-degenerate `pending`/`confirmed` booking on the same service
fails with `Conflict` (the `.error` result leaves the state untouched);
(ii) likewise a reschedule, excluding the booking being moved; (iii) a
conflict is only ever caused by a `pending` or `confirmed` booking on the
service, so `cancelled`/`completed` bookings never block. -/
theorem C1_conflict_blocks :
    (∀ (now : Int) (db : DB) (u : User) (req : BookingCreate) (s : Service),
        serviceById db req.service_id = some s →
        s.is_active = true →
        0 < s.duration_minutes →
        ¬ req.start_time < now →
        (∃ b ∈ db.bookings, b.start_time < b.end_time
          ∧ b.service_id = req.service_id
          ∧ (b.status = BookingStatus.pending ∨ b.status = BookingStatus.confirmed)
          ∧ req.start_time < b.end_time
          ∧ b.start_time < req.start_time + s.duration_minutes) →
        create_booking now db u req = .error .conflict)
  ∧ (∀ (now : Int) (db : DB) (u : User) (bid : Nat) (t : Int) (b0 : Booking) (s : Service),
        bookingById db bid = some b0 →
        b0.user_id = u.id →
        (b0.status = BookingStatus.pending ∨ b0.status = BookingStatus.confirmed) →
        serviceById db b0.service_id = some s →
        0 < s.duration_minutes →
        ¬ t < now →
        (∃ b ∈ db.bookings, b.id ≠ b0.id
          ∧ b.start_time < b.end_time
          ∧ b.service_id = b0.service_id
          ∧ (b.status = BookingStatus.pending ∨ b.status = BookingStatus.confirmed)
          ∧ t < b.end_time
          ∧ b.start_time < t + s.duration_minutes) →
        update_booking now db u bid { start_time := some t, status := none }
          = .error .conflict)
  ∧ (∀ (bookings : List Booking) (sid : Nat) (s e : Int) (excl : Option Nat),
        check_conflict bookings sid s e excl = true →
        ∃ b ∈ bookings, b.service_id = sid
          ∧ (b.status = BookingStatus.pending ∨ b.status = BookingStatus.confirmed)) := by
  refine ⟨?_, ?_, ?_⟩
  · intro now db u req s hs hact hdur hnow hex
    have hcc : check_conflict db.bookings req.service_id req.start_time
        (req.start_time + s.duration_minutes) none = true := by
      rw [check_conflict_iff]
      obtain ⟨b, hb, hnd, hsid, hst, h1, h2⟩ := hex
      refine ⟨b, hb, hsid, hst, ?_, excludePasses_none b⟩
      rw [overlap_clauses_iff_half_open _ _ _ _ (by omega) hnd]
      simp only [half_open_overlap, Bool.and_eq_true, decide_eq_true_eq]
      exact ⟨h1, h2⟩
    simp only [create_booking, hs, hact]
    rw [if_neg hnow]
    simp [hcc]
  · intro now db u bid t b0 s hb0 howner hstat hs hdur hnow hex
    have hcc : check_conflict db.bookings b0.service_id t
        (t + s.duration_minutes) (some b0.id) = true := by
      rw [check_conflict_iff]
      obtain ⟨b, hb, hne, hnd, hsid, hst, h1, h2⟩ := hex
      refine ⟨b, hb, hsid, hst, ?_, excludePasses_of_ne _ _ hne⟩
      rw [overlap_clauses_iff_half_open _ _ _ _ (by omega) hnd]
      simp only [half_open_overlap, Bool.and_eq_true, decide_eq_true_eq]
      exact ⟨h1, h2⟩
    have hst2 : (decide (b0.status = BookingStatus.pending)
        || decide (b0.status = BookingStatus.confirmed)) = true := by
      rcases hstat with h | h <;> simp [h]
    simp [update_booking, hb0, hs, hnow, howner, hst2, hcc]
  · intro bookings sid s e excl h
    rw [check_conflict_iff] at h
    obtain ⟨b, hb, hsid, hst, _, _⟩ := h
    exact ⟨b, hb, hsid, hst⟩

/-! ### Concrete fixtures used by the witnesses -/

/-- A 60-minute active service. -/
def svc60 : Service := { id := 1, duration_minutes := 60, is_active := true }

/-- A pending booking of user 1 on service 1 over `[100,160)`. -/
def bookingA : Booking :=
  { id := 1, user_id := 1, service_id := 1, start_time := 100, end_time := 160,
    status := .pending, created_at := 0 }

/-- A confirmed booking of user 2 on service 1 over `[300,360)`. -/
def bookingB : Booking :=
  { id := 2, user_id := 2, service_id := 1, start_time := 300, end_time := 360,
    status := .confirmed, created_at := 0 }

/-- Sample store holding both bookings. -/
def dbSample : DB :=
  { services := [svc60], bookings := [bookingA, bookingB], reviews := [] }

/-- Owner of `bookingA`. -/
def alice : User := { id := 1, role := .user }

/-- Owner of `bookingB`. -/
def bob : User := { id := 2, role := .user }

/-- An administrator who owns nothing. -/
def adminUser : User := { id := 9, role := .admin }

/-- Witness for C1: creating over `[130,190)` on service 1 conflicts with
`bookingA`; rescheduling `bookingB` to `[130,190)` conflicts as well; and a
concrete conflict exhibits a pending/confirmed blocker. -/
theorem C1_conflict_blocks_witness :
    create_booking 0 dbSample bob { service_id := 1, start_time := 130 }
        = .error .conflict
    ∧ update_booking 0 dbSample bob 2 { start_time := some 130, status := none }
        = .error .conflict
    ∧ ∃ b ∈ dbSample.bookings, b.service_id = 1
        ∧ (b.status = BookingStatus.pending ∨ b.status = BookingStatus.confirmed) :=
  ⟨C1_conflict_blocks.1 0 dbSample bob { service_id := 1, start_time := 130 } svc60
      rfl rfl (by decide) (by decide) (by decide),
   C1_conflict_blocks.2.1 0 dbSample bob 2 130 bookingB svc60 rfl rfl
      (by decide) rfl (by decide) (by decide) (by decide),
   C1_conflict_blocks.2.2 dbSample.bookings 1 130 190 none (by decide)⟩

/-! ### C3: end-time derivation and positivity -/

/-- C3: a successful creation persists a `pending` booking whose `end_time`
is the requested `start_time` plus the service's `duration_minutes`; a
successful owner reschedule recomputes `end_time` the same way from the
service's current duration; in both cases `end_time > start_time` whenever
`duration_minutes > 0`. -/
theorem C3_end_time :
    (∀ (now : Int) (db : DB) (u : User) (req : BookingCreate) (s : Service)
        (db' : DB) (b : Booking),
        serviceById db req.service_id = some s →
        create_booking now db u req = .ok (db', b) →
        b.status = BookingStatus.pending
        ∧ b.start_time = req.start_time
        ∧ b.end_time = req.start_time + s.duration_minutes
        ∧ (0 < s.duration_minutes → b.start_time < b.end_time))
  ∧ (∀ (now : Int) (db : DB) (u : User) (bid : Nat) (t : Int) (b0 : Booking)
        (s : Service) (db' : DB) (b' : Booking),
        bookingById db bid = some b0 →
        b0.user_id = u.id →
        serviceById db b0.service_id = some s →
        update_booking now db u bid { start_time := some t, status := none }
          = .ok (db', b') →
        b'.start_time = t
        ∧ b'.end_time = t + s.duration_minutes
        ∧ (0 < s.duration_minutes → b'.start_time < b'.end_time)) := by
  constructor
  · intro now db u req s db' b hs hok
    by_cases hval : req.start_time < now
    · simp [create_booking, hval] at hok
    cases hact : s.is_active with
    | false => simp [create_booking, hs, hval, hact] at hok
    | true =>
      cases hcc : check_conflict db.bookings req.service_id req.start_time
          (req.start_time + s.duration_minutes) none with
      | true => simp [create_booking, hs, hval, hact, hcc] at hok
      | false =>
        simp [create_booking, hs, hval, hact, hcc] at hok
        obtain ⟨-, hb⟩ := hok
        subst hb
        refine ⟨rfl, rfl, rfl, ?_⟩
        intro h
        simp only []
        omega
  · intro now db u bid t b0 s db' b' hb0 howner hs hok
    have ho : decide (b0.user_id = u.id) = true := by simp [howner]
    by_cases hval : t < now
    · simp [update_booking, hval] at hok
    cases hstat : (decide (b0.status = BookingStatus.pending)
        || decide (b0.status = BookingStatus.confirmed)) with
    | false => simp [update_booking, hb0, hs, hval, ho, hstat] at hok
    | true =>
      cases hcc : check_conflict db.bookings b0.service_id t
          (t + s.duration_minutes) (some b0.id) with
      | true => simp [update_booking, hb0, hs, hval, ho, hstat, hcc] at hok
      | false =>
        simp [update_booking, hb0, hs, hval, ho, hstat, hcc] at hok
        obtain ⟨-, hb⟩ := hok
        subst hb
        refine ⟨rfl, rfl, ?_⟩
        intro h
        simp only []
        omega

/-- The booking persisted by the witness creation below. -/
def bookingC : Booking :=
  { id := 3, user_id := 1, service_id := 1, start_time := 500, end_time := 560,
    status := .pending, created_at := 0 }

/-- Store after the witness creation. -/
def dbAfterCreate : DB :=
  { services := [svc60], bookings := [bookingA, bookingB, bookingC], reviews := [] }

/-- `bookingA` as persisted by the witness reschedule below. -/
def bookingA2 : Booking :=
  { bookingA with start_time := 500, end_time := 560 }

/-- Store after the witness reschedule. -/
def dbAfterResched : DB :=
  { services := [svc60], bookings := [bookingA2, bookingB], reviews := [] }

/-- Witness for C3: a concrete successful creation at start 500 on the
60-minute service, and a concrete successful reschedule of `bookingA` to 500;
both persist `end_time = 560`. -/
theorem C3_end_time_witness :
    (bookingC.status = BookingStatus.pending
      ∧ bookingC.start_time = (500 : Int)
      ∧ bookingC.end_time = (500 : Int) + svc60.duration_minutes
      ∧ (0 < svc60.duration_minutes → bookingC.start_time < bookingC.end_time))
    ∧ (bookingA2.start_time = (500 : Int)
      ∧ bookingA2.end_time = (500 : Int) + svc60.duration_minutes
      ∧ (0 < svc60.duration_minutes → bookingA2.start_time < bookingA2.end_time)) :=
  ⟨C3_end_time.1 0 dbSample alice { service_id := 1, start_time := 500 } svc60
      dbAfterCreate bookingC rfl rfl,
   C3_end_time.2 0 dbSample alice 1 500 bookingA svc60 dbAfterResched bookingA2
      rfl rfl rfl rfl⟩

/-! ### C4: owner reschedule gating and frame -/

/-- C4: an owner-initiated reschedule (a `PATCH` carrying only a new
`start_time`) fails with `InvalidState` unless the booking's status is
`pending` or `confirmed`; on success only `start_time` and `end_time` change:
`id`, `user_id`, `service_id`, `status` and `created_at` are untouched. -/
theorem C4_reschedule_frame :
    (∀ (now : Int) (db : DB) (u : User) (bid : Nat) (t : Int) (b0 : Booking),
        bookingById db bid = some b0 →
        b0.user_id = u.id →
        ¬ t < now →
        ¬ (b0.status = BookingStatus.pending ∨ b0.status = BookingStatus.confirmed) →
        update_booking now db u bid { start_time := some t, status := none }
          = .error .invalidState)
  ∧ (∀ (now : Int) (db : DB) (u : User) (bid : Nat) (t : Int) (b0 : Booking)
        (db' : DB) (b' : Booking),
        bookingById db bid = some b0 →
        b0.user_id = u.id →
        update_booking now db u bid { start_time := some t, status := none }
          = .ok (db', b') →
        b'.id = b0.id ∧ b'.user_id = b0.user_id ∧ b'.service_id = b0.service_id
          ∧ b'.status = b0.status ∧ b'.created_at = b0.created_at) := by
  constructor
  · intro now db u bid t b0 hb0 howner hnow hstat
    have ho : decide (b0.user_id = u.id) = true := by simp [howner]
    have hst2 : (decide (b0.status = BookingStatus.pending)
        || decide (b0.status = BookingStatus.confirmed)) = false := by
      simp only [Bool.or_eq_false_iff, decide_eq_false_iff_not]
      exact ⟨fun h => hstat (Or.inl h), fun h => hstat (Or.inr h)⟩
    simp [update_booking, hb0, hnow, ho, hst2]
  · intro now db u bid t b0 db' b' hb0 howner hok
    have ho : decide (b0.user_id = u.id) = true := by simp [howner]
    by_cases hval : t < now
    · simp [update_booking, hval] at hok
    cases hstat : (decide (b0.status = BookingStatus.pending)
        || decide (b0.status = BookingStatus.confirmed)) with
    | false => simp [update_booking, hb0, hval, ho, hstat] at hok
    | true =>
      cases hsv : serviceById db b0.service_id with
      | none => simp [update_booking, hb0, hval, ho, hstat, hsv] at hok
      | some s =>
        cases hcc : check_conflict db.bookings b0.service_id t
            (t + s.duration_minutes) (some b0.id) with
        | true => simp [update_booking, hb0, hval, ho, hstat, hsv, hcc] at hok
        | false =>
          simp [update_booking, hb0, hval, ho, hstat, hsv, hcc] at hok
          obtain ⟨-, hb⟩ := hok
          subst hb
          exact ⟨rfl, rfl, rfl, rfl, rfl⟩

/-- A third user, owner of the completed booking below. -/
def carol : User := { id := 3, role := .user }

/-- A completed booking of user 3 on service 1. -/
def bookingDone : Booking :=
  { id := 1, user_id := 3, service_id := 1, start_time := 100, end_time := 160,
    status := .completed, created_at := 0 }

/-- Store holding only the completed booking. -/
def dbSample2 : DB :=
  { services := [svc60], bookings := [bookingDone], reviews := [] }

/-- Witness for C4: rescheduling a completed booking fails with
`InvalidState`; the successful reschedule of `bookingA` to 500 changes only
its start and end. -/
theorem C4_reschedule_frame_witness :
    update_booking 0 dbSample2 carol 1 { start_time := some 500, status := none }
        = .error .invalidState
    ∧ (bookingA2.id = bookingA.id ∧ bookingA2.user_id = bookingA.user_id
      ∧ bookingA2.service_id = bookingA.service_id
      ∧ bookingA2.status = bookingA.status
      ∧ bookingA2.created_at = bookingA.created_at) :=
  ⟨C4_reschedule_frame.1 0 dbSample2 carol 1 500 bookingDone rfl rfl
      (by decide) (by decide),
   C4_reschedule_frame.2 0 dbSample alice 1 500 bookingA dbAfterResched bookingA2
      rfl rfl rfl⟩

/-! ### C5: status-change authorization (corrected) -/

/-- C5 as stated is refuted: a non-admin owner who requests a status other
than `cancelled` receives 403 `Forbidden` ("Not authorized to change booking
status"), not `InvalidState`.  Concretely, owner `alice` asking to set her
pending `bookingA` to `confirmed` gets `Forbidden`. -/
theorem C5_set_status_counterexample :
    update_booking 0 dbSample alice 1
        { start_time := none, status := some .confirmed }
      = .error .forbidden
    ∧ ApiError.forbidden ≠ ApiError.invalidState :=
  ⟨rfl, by decide⟩

/-- C5 (amended): on a status-only `PATCH` of an existing booking:
an administrator sets any status unconditionally (even out of terminal
states); a non-admin owner succeeds exactly on `cancelled` from
`pending`/`confirmed`; an owner's `cancelled` request from a terminal state
fails with `InvalidState`; an owner's request for any other status fails with
`Forbidden`; an actor who is neither owner nor admin fails with `Forbidden`. -/
theorem C5_set_status :
    (∀ (now : Int) (db : DB) (u : User) (bid : Nat) (st : BookingStatus)
        (b0 : Booking),
        bookingById db bid = some b0 →
        u.role = UserRole.admin →
        update_booking now db u bid { start_time := none, status := some st }
          = .ok ({ db with bookings := replaceBooking db.bookings ({ b0 with status := st }) },
                 { b0 with status := st }))
  ∧ (∀ (now : Int) (db : DB) (u : User) (bid : Nat) (b0 : Booking),
        bookingById db bid = some b0 →
        b0.user_id = u.id →
        u.role ≠ UserRole.admin →
        (b0.status = BookingStatus.pending ∨ b0.status = BookingStatus.confirmed) →
        update_booking now db u bid
            { start_time := none, status := some .cancelled }
          = .ok ({ db with
                   bookings := replaceBooking db.bookings ({ b0 with status := .cancelled }) },
                 { b0 with status := .cancelled }))
  ∧ (∀ (now : Int) (db : DB) (u : User) (bid : Nat) (b0 : Booking),
        bookingById db bid = some b0 →
        b0.user_id = u.id →
        u.role ≠ UserRole.admin →
        ¬ (b0.status = BookingStatus.pending ∨ b0.status = BookingStatus.confirmed) →
        update_booking now db u bid
            { start_time := none, status := some .cancelled }
          = .error .invalidState)
  ∧ (∀ (now : Int) (db : DB) (u : User) (bid : Nat) (st : BookingStatus)
        (b0 : Booking),
        bookingById db bid = some b0 →
        b0.user_id = u.id →
        u.role ≠ UserRole.admin →
        st ≠ BookingStatus.cancelled →
        update_booking now db u bid { start_time := none, status := some st }
          = .error .forbidden)
  ∧ (∀ (now : Int) (db : DB) (u : User) (bid : Nat) (st : BookingStatus)
        (b0 : Booking),
        bookingById db bid = some b0 →
        b0.user_id ≠ u.id →
        u.role ≠ UserRole.admin →
        update_booking now db u bid { start_time := none, status := some st }
          = .error .forbidden) := by
  refine ⟨?_, ?_, ?_, ?_, ?_⟩
  · intro now db u bid st b0 hb0 hadmin
    have ha : decide (u.role = UserRole.admin) = true := by simp [hadmin]
    simp [update_booking, hb0, ha]
  · intro now db u bid b0 hb0 howner hrole hstat
    have ho : decide (b0.user_id = u.id) = true := by simp [howner]
    have ha : decide (u.role = UserRole.admin) = false := by simp [hrole]
    have hst2 : (decide (b0.status = BookingStatus.pending)
        || decide (b0.status = BookingStatus.confirmed)) = true := by
      rcases hstat with h | h <;> simp [h]
    simp [update_booking, hb0, ho, ha, hst2]
  · intro now db u bid b0 hb0 howner hrole hstat
    have ho : decide (b0.user_id = u.id) = true := by simp [howner]
    have ha : decide (u.role = UserRole.admin) = false := by simp [hrole]
    have hst2 : (decide (b0.status = BookingStatus.pending)
        || decide (b0.status = BookingStatus.confirmed)) = false := by
      simp only [Bool.or_eq_false_iff, decide_eq_false_iff_not]
      exact ⟨fun h => hstat (Or.inl h), fun h => hstat (Or.inr h)⟩
    simp [update_booking, hb0, ho, ha, hst2]
  · intro now db u bid st b0 hb0 howner hrole hstne
    have ho : decide (b0.user_id = u.id) = true := by simp [howner]
    have ha : decide (u.role = UserRole.admin) = false := by simp [hrole]
    have hstc : decide (st = BookingStatus.cancelled) = false := by simp [hstne]
    simp [update_booking, hb0, ho, ha, hstc]
  · intro now db u bid st b0 hb0 howner hrole
    have ho : decide (b0.user_id = u.id) = false := by
      simp only [decide_eq_false_iff_not]
      exact fun h => howner h
    have ha : decide (u.role = UserRole.admin) = false := by simp [hrole]
    simp [update_booking, hb0, ho, ha]

/-- Witness for C5 at concrete requests: the admin revives the completed
booking to `pending`; `alice` cancels her pending booking; `carol`'s cancel
of her completed booking is `InvalidState`; `alice`'s request for `completed`
is `Forbidden`; `bob`'s request on `alice`'s booking is `Forbidden`. -/
theorem C5_set_status_witness :
    update_booking 0 dbSample2 adminUser 1
        { start_time := none, status := some .pending }
      = .ok ({ dbSample2 with
               bookings := replaceBooking dbSample2.bookings ({ bookingDone with status := .pending }) },
             { bookingDone with status := .pending })
    ∧ update_booking 0 dbSample alice 1
        { start_time := none, status := some .cancelled }
      = .ok ({ dbSample with
               bookings := replaceBooking dbSample.bookings ({ bookingA with status := .cancelled }) },
             { bookingA with status := .cancelled })
    ∧ update_booking 0 dbSample2 carol 1
        { start_time := none, status := some .cancelled }
      = .error .invalidState
    ∧ update_booking 0 dbSample alice 1
        { start_time := none, status := some .completed }
      = .error .forbidden
    ∧ update_booking 0 dbSample bob 1
        { start_time := none, status := some .cancelled }
      = .error .forbidden :=
  ⟨C5_set_status.1 0 dbSample2 adminUser 1 .pending bookingDone rfl rfl,
   C5_set_status.2.1 0 dbSample alice 1 bookingA rfl rfl (by decide) (by decide),
   C5_set_status.2.2.1 0 dbSample2 carol 1 bookingDone rfl rfl (by decide) (by decide),
   C5_set_status.2.2.2.1 0 dbSample alice 1 .completed bookingA rfl rfl
      (by decide) (by decide),
   C5_set_status.2.2.2.2 0 dbSample bob 1 .cancelled bookingA rfl (by decide)
      (by decide)⟩

/-! ### C6: delete authorization and review cascade -/

/-- C6: a non-admin owner's delete succeeds iff the current time is strictly
before the booking's `start_time` and fails with `InvalidState` otherwise; an
administrator's delete always succeeds; a successful delete removes the
booking and every review referencing it. -/
theorem C6_delete :
    (∀ (now : Int) (db : DB) (u : User) (bid : Nat) (b0 : Booking),
        bookingById db bid = some b0 →
        b0.user_id = u.id →
        u.role ≠ UserRole.admin →
        (now < b0.start_time →
          delete_booking now db u bid
            = .ok { db with
                bookings := db.bookings.filter fun b => !decide (b.id = b0.id)
                reviews := db.reviews.filter fun r => !decide (r.booking_id = b0.id) })
        ∧ (¬ now < b0.start_time →
          delete_booking now db u bid = .error .invalidState))
  ∧ (∀ (now : Int) (db : DB) (u : User) (bid : Nat) (b0 : Booking),
        bookingById db bid = some b0 →
        u.role = UserRole.admin →
        delete_booking now db u bid
          = .ok { db with
              bookings := db.bookings.filter fun b => !decide (b.id = b0.id)
              reviews := db.reviews.filter fun r => !decide (r.booking_id = b0.id) })
  ∧ (∀ (now : Int) (db : DB) (u : User) (bid : Nat) (db' : DB),
        delete_booking now db u bid = .ok db' →
        (∀ r ∈ db'.reviews, r.booking_id ≠ bid)
        ∧ (∀ b ∈ db'.bookings, b.id ≠ bid)) := by
  refine ⟨?_, ?_, ?_⟩
  · intro now db u bid b0 hb0 howner hrole
    have ho : decide (b0.user_id = u.id) = true := by simp [howner]
    have ha : decide (u.role = UserRole.admin) = false := by simp [hrole]
    constructor
    · intro hlt
      have hts : decide (b0.start_time ≤ now) = false := by
        simp only [decide_eq_false_iff_not]
        omega
      simp [delete_booking, hb0, ho, ha, hts]
    · intro hge
      have hts : decide (b0.start_time ≤ now) = true := by
        simp only [decide_eq_true_eq]
        omega
      simp [delete_booking, hb0, ho, ha, hts]
  · intro now db u bid b0 hb0 hadmin
    have ha : decide (u.role = UserRole.admin) = true := by simp [hadmin]
    simp [delete_booking, hb0, ha]
  · intro now db u bid db' hok
    cases hb0 : bookingById db bid with
    | none => simp [delete_booking, hb0] at hok
    | some b0 =>
      have hid : b0.id = bid := bookingById_id db bid b0 hb0
      simp only [delete_booking, hb0] at hok
      split at hok
      · simp at hok
      split at hok
      · simp at hok
      · rw [Except.ok.injEq] at hok
        subst hok
        constructor
        · intro r hr
          rw [List.mem_filter] at hr
          have h2 := hr.2
          simp only [Bool.not_eq_eq_eq_not, Bool.not_true, decide_eq_false_iff_not] at h2
          rw [hid] at h2
          exact h2
        · intro b hb
          rw [List.mem_filter] at hb
          have h2 := hb.2
          simp only [Bool.not_eq_eq_eq_not, Bool.not_true, decide_eq_false_iff_not] at h2
          rw [hid] at h2
          exact h2

/-- A review of the completed booking `bookingDone`. -/
def reviewDone : Review :=
  { id := 1, booking_id := 1, rating := 5, comment := "great", created_at := 0 }

/-- Store with the completed booking and its review. -/
def dbSample3 : DB :=
  { services := [svc60], bookings := [bookingDone], reviews := [reviewDone] }

/-- Witness for C6: `alice` deletes her booking before its start and is
refused after it starts; the admin deletes the completed booking, which also
removes its review; the concrete post-deletion state carries no reference to
the deleted booking. -/
theorem C6_delete_witness :
    delete_booking 0 dbSample alice 1
      = .ok { dbSample with
          bookings := dbSample.bookings.filter fun b => !decide (b.id = bookingA.id)
          reviews := dbSample.reviews.filter fun r => !decide (r.booking_id = bookingA.id) }
    ∧ delete_booking 200 dbSample alice 1 = .error .invalidState
    ∧ delete_booking 200 dbSample3 adminUser 1
      = .ok { dbSample3 with
          bookings := dbSample3.bookings.filter fun b => !decide (b.id = bookingDone.id)
          reviews := dbSample3.reviews.filter fun r => !decide (r.booking_id = bookingDone.id) }
    ∧ ((∀ r ∈ ({ services := [svc60], bookings := [], reviews := [] } : DB).reviews,
          r.booking_id ≠ 1)
        ∧ (∀ b ∈ ({ services := [svc60], bookings := [], reviews := [] } : DB).bookings,
          b.id ≠ 1)) :=
  ⟨(C6_delete.1 0 dbSample alice 1 bookingA rfl rfl (by decide)).1 (by decide),
   (C6_delete.1 200 dbSample alice 1 bookingA rfl rfl (by decide)).2 (by decide),
   C6_delete.2.1 200 dbSample3 adminUser 1 bookingDone rfl rfl,
   C6_delete.2.2 200 dbSample3 adminUser 1
     { services := [svc60], bookings := [], reviews := [] } rfl⟩

/-! ### C7: review creation checks, their order, and uniqueness -/

/-- C7: review creation rejects out-of-range ratings (outside `[1,5]`) and
comment lengths (outside `[1,1000]`) as validation errors before the handler
runs; then the handler's checks apply in order — `NotFound` when the booking
is absent, else `Forbidden` when the requester does not own it, else
`InvalidState` when it is not `completed`, else `AlreadyExists` when a review
already references it — and otherwise exactly one review for the booking is
persisted.  The order shows in the hypotheses: each failure needs only the
outcomes of the earlier checks. -/
theorem C7_review_create :
    (∀ (now : Int) (db : DB) (u : User) (req : ReviewCreate),
        reviewCreateValid req = false →
        create_review now db u req = .error .validationError)
  ∧ (∀ (now : Int) (db : DB) (u : User) (req : ReviewCreate),
        reviewCreateValid req = true →
        bookingById db req.booking_id = none →
        create_review now db u req = .error .notFound)
  ∧ (∀ (now : Int) (db : DB) (u : User) (req : ReviewCreate) (b0 : Booking),
        reviewCreateValid req = true →
        bookingById db req.booking_id = some b0 →
        b0.user_id ≠ u.id →
        create_review now db u req = .error .forbidden)
  ∧ (∀ (now : Int) (db : DB) (u : User) (req : ReviewCreate) (b0 : Booking),
        reviewCreateValid req = true →
        bookingById db req.booking_id = some b0 →
        b0.user_id = u.id →
        b0.status ≠ BookingStatus.completed →
        create_review now db u req = .error .invalidState)
  ∧ (∀ (now : Int) (db : DB) (u : User) (req : ReviewCreate) (b0 : Booking)
        (r : Review),
        reviewCreateValid req = true →
        bookingById db req.booking_id = some b0 →
        b0.user_id = u.id →
        b0.status = BookingStatus.completed →
        reviewByBookingId db req.booking_id = some r →
        create_review now db u req = .error .alreadyExists)
  ∧ (∀ (now : Int) (db : DB) (u : User) (req : ReviewCreate) (b0 : Booking),
        reviewCreateValid req = true →
        bookingById db req.booking_id = some b0 →
        b0.user_id = u.id →
        b0.status = BookingStatus.completed →
        reviewByBookingId db req.booking_id = none →
        ∃ (db' : DB) (rv : Review),
          create_review now db u req = .ok (db', rv)
          ∧ rv.booking_id = req.booking_id
          ∧ (db'.reviews.filter fun r =>
              decide (r.booking_id = req.booking_id)).length = 1) := by
  refine ⟨?_, ?_, ?_, ?_, ?_, ?_⟩
  · intro now db u req hval
    simp [create_review, hval]
  · intro now db u req hval hfind
    simp [create_review, hval, hfind]
  · intro now db u req b0 hval hfind hne
    have ho : decide (b0.user_id = u.id) = false := by
      simp only [decide_eq_false_iff_not]
      exact hne
    simp [create_review, hval, hfind, ho]
  · intro now db u req b0 hval hfind howner hnc
    have ho : decide (b0.user_id = u.id) = true := by simp [howner]
    have hc : decide (b0.status = BookingStatus.completed) = false := by
      simp only [decide_eq_false_iff_not]
      exact hnc
    simp [create_review, hval, hfind, ho, hc]
  · intro now db u req b0 r hval hfind howner hcompl hrev
    have ho : decide (b0.user_id = u.id) = true := by simp [howner]
    have hc : decide (b0.status = BookingStatus.completed) = true := by simp [hcompl]
    simp [create_review, hval, hfind, ho, hc, hrev]
  · intro now db u req b0 hval hfind howner hcompl hrev
    have ho : decide (b0.user_id = u.id) = true := by simp [howner]
    have hc : decide (b0.status = BookingStatus.completed) = true := by simp [hcompl]
    refine ⟨{ db with reviews := db.reviews
                ++ [⟨freshReviewId db.reviews, req.booking_id, req.rating, req.comment, now⟩] },
      ⟨freshReviewId db.reviews, req.booking_id, req.rating, req.comment, now⟩,
      ?_, rfl, ?_⟩
    · simp [create_review, hval, hfind, ho, hc, hrev]
    · have hempty : db.reviews.filter
          (fun r => decide (r.booking_id = req.booking_id)) = [] := by
        rw [List.filter_eq_nil_iff]
        intro r hr
        have hnone := List.find?_eq_none.mp hrev r hr
        simpa using hnone
      rw [List.filter_append, hempty]
      simp

/-- Store with the completed booking of `carol` and no review yet. -/
def dbSample4 : DB :=
  { services := [svc60], bookings := [bookingDone], reviews := [] }

/-- Witness for C7: each check fires at a concrete request — rating 6 is a
validation error; booking 99 is `NotFound`; `alice` on `carol`'s booking is
`Forbidden`; `alice` on her pending booking is `InvalidState`; a second
review of the reviewed booking is `AlreadyExists`; `carol`'s valid review of
her completed, unreviewed booking leaves exactly one review for it. -/
theorem C7_review_create_witness :
    create_review 0 dbSample4 carol { booking_id := 1, rating := 6, comment := "x" }
        = .error .validationError
    ∧ create_review 0 dbSample4 carol { booking_id := 99, rating := 5, comment := "x" }
        = .error .notFound
    ∧ create_review 0 dbSample4 alice { booking_id := 1, rating := 5, comment := "x" }
        = .error .forbidden
    ∧ create_review 0 dbSample alice { booking_id := 1, rating := 5, comment := "x" }
        = .error .invalidState
    ∧ create_review 0 dbSample3 carol { booking_id := 1, rating := 5, comment := "x" }
        = .error .alreadyExists
    ∧ ∃ (db' : DB) (rv : Review),
        create_review 0 dbSample4 carol { booking_id := 1, rating := 5, comment := "x" }
          = .ok (db', rv)
        ∧ rv.booking_id = 1
        ∧ (db'.reviews.filter fun r => decide (r.booking_id = 1)).length = 1 :=
  ⟨C7_review_create.1 0 dbSample4 carol
      { booking_id := 1, rating := 6, comment := "x" } (by decide),
   C7_review_create.2.1 0 dbSample4 carol
      { booking_id := 99, rating := 5, comment := "x" } (by decide) rfl,
   C7_review_create.2.2.1 0 dbSample4 alice
      { booking_id := 1, rating := 5, comment := "x" } bookingDone (by decide) rfl
      (by decide),
   C7_review_create.2.2.2.1 0 dbSample alice
      { booking_id := 1, rating := 5, comment := "x" } bookingA (by decide) rfl rfl
      (by decide),
   C7_review_create.2.2.2.2.1 0 dbSample3 carol
      { booking_id := 1, rating := 5, comment := "x" } bookingDone reviewDone
      (by decide) rfl rfl rfl rfl,
   C7_review_create.2.2.2.2.2 0 dbSample4 carol
      { booking_id := 1, rating := 5, comment := "x" } bookingDone
      (by decide) rfl rfl rfl rfl⟩

/-! ### C8: non-future start times (corrected) -/

/-- The booking persisted by the C8 counterexample below. -/
def bkC8 : Booking :=
  { id := 3, user_id := 1, service_id := 1, start_time := 0, end_time := 60,
    status := .pending, created_at := 0 }

/-- C8 as stated is refuted: `BookingCreate.validate_start_time` raises only
on `v < datetime.utcnow()`, so a `start_time` exactly equal to the current
time (`start_time ≤ now` but not `< now`) passes validation and the booking
is created.  Concretely, at `now = 0` the request with `start_time = 0`
succeeds. -/
theorem C8_past_start_counterexample :
    ((0 : Int) ≤ 0)
    ∧ create_booking 0 dbSample alice { service_id := 1, start_time := 0 }
        = .ok ({ dbSample with bookings := dbSample.bookings ++ [bkC8] }, bkC8) :=
  ⟨by decide, rfl⟩

/-- C8 (amended): a booking-creation request whose `start_time` is strictly
before the current time fails with `ValidationError`, so no booking is
created. -/
theorem C8_past_start (now : Int) (db : DB) (u : User) (req : BookingCreate)
    (h : req.start_time < now) :
    create_booking now db u req = .error .validationError := by
  simp [create_booking, h]

/-- Witness for C8 (amended): at `now = 10` a request with `start_time = 5`
is rejected. -/
theorem C8_past_start_witness :
    create_booking 10 dbSample alice { service_id := 1, start_time := 5 }
      = .error .validationError :=
  C8_past_start 10 dbSample alice { service_id := 1, start_time := 5 } (by decide)

/-! ### C9: listing scope by role -/

/-- C9: a non-admin caller of `GET /bookings` only ever receives their own
bookings, whatever the `status`/`from`/`to` filters; an admin caller receives
exactly the bookings matching the filters with no user filter applied. -/
theorem C9_listing_scope :
    (∀ (db : DB) (u : User) (st : Option BookingStatus) (fd td : Option Int),
        u.role ≠ UserRole.admin →
        ∀ b ∈ get_bookings db u st fd td, b.user_id = u.id)
  ∧ (∀ (db : DB) (u : User) (st : Option BookingStatus) (fd td : Option Int),
        u.role = UserRole.admin →
        ∀ b : Booking, b ∈ get_bookings db u st fd td
          ↔ b ∈ db.bookings ∧ matchesFilters b none st fd td = true) := by
  constructor
  · intro db u st fd td hrole b hb
    simp only [get_bookings, if_neg hrole, get_all] at hb
    rw [mem_sortByStartDesc, List.mem_filter] at hb
    have h2 := hb.2
    simp only [matchesFilters, Bool.and_eq_true, decide_eq_true_eq] at h2
    exact h2.1.1.1
  · intro db u st fd td hrole b
    simp only [get_bookings, if_pos hrole, get_all]
    rw [mem_sortByStartDesc, List.mem_filter]

/-- Witness for C9: `bob` sees only his bookings in the sample store; for the
admin, membership in the listing coincides with the filter predicate, checked
at `bookingA`. -/
theorem C9_listing_scope_witness :
    (∀ b ∈ get_bookings dbSample bob none none none, b.user_id = bob.id)
    ∧ (bookingA ∈ get_bookings dbSample adminUser none none none
        ↔ bookingA ∈ dbSample.bookings
          ∧ matchesFilters bookingA none none none none = true) :=
  ⟨C9_listing_scope.1 dbSample bob none none none (by decide),
   C9_listing_scope.2 dbSample adminUser none none none rfl bookingA⟩

/-! ### C10: admin-supplied start_time is silently ignored -/

/-- C10: when an administrator who does not own the booking sends a `PATCH`
carrying a new `start_time` (and possibly a status), the reschedule block is
skipped because it requires ownership: the request succeeds, `start_time` and
`end_time` (and all identity fields) are unchanged, and only the requested
status change, if any, takes effect. -/
theorem C10_admin_start_skipped :
    ∀ (now : Int) (db : DB) (u : User) (bid : Nat) (t : Int)
      (sto : Option BookingStatus) (b0 : Booking),
      bookingById db bid = some b0 →
      b0.user_id ≠ u.id →
      u.role = UserRole.admin →
      ¬ t < now →
      ∃ (db' : DB) (b' : Booking),
        update_booking now db u bid { start_time := some t, status := sto }
          = .ok (db', b')
        ∧ b'.start_time = b0.start_time ∧ b'.end_time = b0.end_time
        ∧ b'.id = b0.id ∧ b'.user_id = b0.user_id ∧ b'.service_id = b0.service_id
        ∧ b'.status = sto.getD b0.status := by
  intro now db u bid t sto b0 hb0 hne hadmin hnow
  have ho : decide (b0.user_id = u.id) = false := by
    simp only [decide_eq_false_iff_not]
    exact hne
  have ha : decide (u.role = UserRole.admin) = true := by simp [hadmin]
  cases sto with
  | none =>
    refine ⟨db, b0, ?_, rfl, rfl, rfl, rfl, rfl, rfl⟩
    simp [update_booking, hb0, ho, ha, hnow]
  | some st =>
    refine ⟨{ db with
        bookings := replaceBooking db.bookings ({ b0 with status := st }) },
      { b0 with status := st }, ?_, rfl, rfl, rfl, rfl, rfl, rfl⟩
    simp [update_booking, hb0, ho, ha, hnow]

/-- Witness for C10: the admin PATCHes `alice`'s booking with a new start 999
and status `confirmed`; the request succeeds, the times stay `[100,160)`, and
only the status changes. -/
theorem C10_admin_start_skipped_witness :
    ∃ (db' : DB) (b' : Booking),
      update_booking 0 dbSample adminUser 1
          { start_time := some 999, status := some .confirmed }
        = .ok (db', b')
      ∧ b'.start_time = bookingA.start_time ∧ b'.end_time = bookingA.end_time
      ∧ b'.id = bookingA.id ∧ b'.user_id = bookingA.user_id
      ∧ b'.service_id = bookingA.service_id
      ∧ b'.status = (some BookingStatus.confirmed).getD bookingA.status :=
  C10_admin_start_skipped 0 dbSample adminUser 1 999 (some .confirmed) bookingA
    rfl (by decide) rfl (by decide)

end BookIt
